import Mathlib

/-!
Shallow embedding of `scripts/defect_tracker.py` (class `DefectTracker`):
a defect store (table `defects`), an append-only history log (table
`defect_history`), the mutating operations `create_defect`,
`update_status`, `assign_defect`, `add_resolution`, the query
`search_defects`, and the aggregate pieces of `get_metrics` used by the
claims.

Modelling conventions:
* The SQLite tables become Lean lists (`defects`, `history`), kept in
  insertion order; `AUTOINCREMENT` becomes the `next_id` counter.
* Timestamps (`datetime.now().isoformat()` strings, compared and
  subtracted via SQLite `julianday`) are modelled as rational numbers
  measured in days, so `julianday(closed_date) - julianday(found_date)`
  becomes plain subtraction.  Each operation takes its clock reading
  `now` as an explicit argument; the real clock is non-decreasing
  across calls, which theorems state as a hypothesis where needed.
* Python `None` becomes `Option.none`; Python truthiness on optional
  strings (`if resolved_by:`) is `strTruthy`, false for `none` and for
  the empty string; SQLite `NULL`-valued `AVG` feeding `if result[0]`
  is an `Option ℚ` tested with `ratTruthy` (false for `none` and `0`).
-/

namespace DefectTrackerPy

/-- `class DefectSeverity(Enum)`: severity levels with their integer codes. -/
inductive DefectSeverity
  | CRITICAL
  | MAJOR
  | MODERATE
  | MINOR
  | TRIVIAL
deriving DecidableEq, Repr

/-- `DefectSeverity.value`: the integer stored in the `severity` column. -/
def DefectSeverity.value : DefectSeverity → Nat
  | .CRITICAL => 1
  | .MAJOR => 2
  | .MODERATE => 3
  | .MINOR => 4
  | .TRIVIAL => 5

/-- `class DefectStatus(Enum)`: defect lifecycle states. -/
inductive DefectStatus
  | NEW
  | OPEN
  | ASSIGNED
  | IN_PROGRESS
  | FIXED
  | VERIFIED
  | CLOSED
  | REOPENED
  | DEFERRED
  | REJECTED
deriving DecidableEq, Repr

/-- `DefectStatus.value`: the string stored in the `status` column. -/
def DefectStatus.value : DefectStatus → String
  | .NEW => "New"
  | .OPEN => "Open"
  | .ASSIGNED => "Assigned"
  | .IN_PROGRESS => "In Progress"
  | .FIXED => "Fixed"
  | .VERIFIED => "Verified"
  | .CLOSED => "Closed"
  | .REOPENED => "Reopened"
  | .DEFERRED => "Deferred"
  | .REJECTED => "Rejected"

/-- `class DefectPriority(Enum)`: priority levels with their integer codes. -/
inductive DefectPriority
  | IMMEDIATE
  | HIGH
  | MEDIUM
  | LOW
deriving DecidableEq, Repr

/-- `DefectPriority.value`: the integer stored in the `priority` column. -/
def DefectPriority.value : DefectPriority → Nat
  | .IMMEDIATE => 1
  | .HIGH => 2
  | .MEDIUM => 3
  | .LOW => 4

/-- One row of the `defects` table (schema in `_create_tables`).
`severity`/`priority` hold the enum integer codes, `status` the enum
string, exactly as the Python code stores them. -/
structure Defect where
  id : Nat
  title : String
  description : Option String
  severity : Nat
  priority : Nat
  status : String
  module : Option String
  found_by : String
  assigned_to : Option String
  found_date : ℚ
  fixed_date : Option ℚ
  verified_date : Option ℚ
  closed_date : Option ℚ
  environment : Option String
  steps_to_reproduce : Option String
  expected_result : Option String
  actual_result : Option String
  root_cause : Option String
  resolution : Option String
  test_case_id : Option String
  build_version : Option String
  attachments : Option String
deriving DecidableEq, Repr

/-- One row of the `defect_history` table (its own autoincrement id is
never read by the code and is omitted). -/
structure HistoryEntry where
  defect_id : Nat
  changed_by : String
  change_date : ℚ
  field_changed : Option String
  old_value : Option String
  new_value : Option String
  comment : Option String
deriving DecidableEq, Repr

/-- The persistent state of a `DefectTracker`: both tables plus the
`AUTOINCREMENT` counter for `defects.id`. -/
structure TrackerState where
  defects : List Defect
  history : List HistoryEntry
  next_id : Nat
deriving DecidableEq, Repr

/-- The empty database produced by `_create_tables` on a fresh file.
SQLite `AUTOINCREMENT` starts at 1. -/
def emptyTracker : TrackerState := { defects := [], history := [], next_id := 1 }

/-- Python truthiness of an optional string: `None` and `""` are falsy. -/
def strTruthy : Option String → Bool
  | none => false
  | some s => s ≠ ""

/-- Python `str()` of an optional value, as used by the f-string in
`add_resolution` (`str(None) = "None"`). -/
def optStr : Option String → String
  | none => "None"
  | some s => s

/-- Python truthiness of the optional number returned by SQL `AVG`:
`None` (no rows) and `0` are falsy. -/
def ratTruthy : Option ℚ → Bool
  | none => false
  | some q => q ≠ 0

/-- `SELECT ... FROM defects WHERE id = ?` followed by `fetchone()`:
the first row with the given id, if any. -/
def findDefect (s : TrackerState) (defect_id : Nat) : Option Defect :=
  s.defects.find? (fun d => d.id == defect_id)

/-- `UPDATE defects SET ... WHERE id = ?`: apply the row update `f` to
every row whose id matches (ids are unique in reachable states, but the
SQL touches all matching rows). -/
def updateWhere (ds : List Defect) (defect_id : Nat) (f : Defect → Defect) : List Defect :=
  ds.map (fun d => if d.id = defect_id then f d else d)

/-- `_log_change`: `INSERT INTO defect_history ...` — appends one row. -/
def log_change (s : TrackerState) (now : ℚ) (defect_id : Nat) (changed_by : String)
    (field_changed old_value new_value comment : Option String) : TrackerState :=
  { s with history := s.history ++
      [{ defect_id := defect_id, changed_by := changed_by, change_date := now,
         field_changed := field_changed, old_value := old_value,
         new_value := new_value, comment := comment }] }

/-- The history rows for one defect, oldest first. -/
def historyFor (s : TrackerState) (defect_id : Nat) : List HistoryEntry :=
  s.history.filter (fun h => h.defect_id == defect_id)

/-- Error outcome of `create_defect`.  `ValidationError` stands for the
failure raised when a required creation field is missing: the schema's
`NOT NULL` constraints on `title` and `found_by` abort the `INSERT`
before any row is written, and a missing `severity`/`priority` enum
fails at `severity.value` before the `INSERT` is even issued. -/
inductive TrackerError
  | ValidationError
deriving DecidableEq, Repr

/-- The defect row assembled by the `INSERT` of `create_defect`. -/
def createdRow (s : TrackerState) (now : ℚ) (title : String)
    (description : Option String) (severity : DefectSeverity)
    (priority : DefectPriority) (found_by : String)
    (module environment steps_to_reproduce expected_result actual_result
      test_case_id build_version : Option String) : Defect :=
  { id := s.next_id, title := title, description := description,
    severity := severity.value, priority := priority.value,
    status := DefectStatus.NEW.value, module := module,
    found_by := found_by, assigned_to := none, found_date := now,
    fixed_date := none, verified_date := none, closed_date := none,
    environment := environment, steps_to_reproduce := steps_to_reproduce,
    expected_result := expected_result, actual_result := actual_result,
    root_cause := none, resolution := none,
    test_case_id := test_case_id, build_version := build_version,
    attachments := none }

/-- `create_defect`: inserts a defect row with `status = New` and
`found_date = now`, then logs one "Defect created" history entry.
Required fields (`title`, `severity`, `priority`, `found_by`) are
`Option`-typed here so that a missing one can be passed; any missing
required field makes the call fail with no write at all (see
`TrackerError.ValidationError`).  Returns the new id and the new state
on success, and the unchanged state on failure. -/
def create_defect (s : TrackerState) (now : ℚ)
    (title : Option String) (description : Option String)
    (severity : Option DefectSeverity) (priority : Option DefectPriority)
    (found_by : Option String) (module : Option String)
    (environment steps_to_reproduce expected_result actual_result
      test_case_id build_version : Option String) :
    Except TrackerError Nat × TrackerState :=
  match title, severity, priority, found_by with
  | some title, some severity, some priority, some found_by =>
      let d : Defect := createdRow s now title description severity priority
        found_by module environment steps_to_reproduce expected_result
        actual_result test_case_id build_version
      let s1 : TrackerState :=
        { s with defects := s.defects ++ [d], next_id := s.next_id + 1 }
      let s2 := log_change s1 now s.next_id found_by none none
        (some DefectStatus.NEW.value) (some "Defect created")
      (Except.ok s.next_id, s2)
  | _, _, _, _ => (Except.error TrackerError.ValidationError, s)

/-- The date-column updates of `update_status`: the `if/elif` chain that
extends the `UPDATE` with `fixed_date`/`verified_date`/`closed_date` =
now when the new status is Fixed/Verified/Closed. -/
def setStatusDates (new_status : DefectStatus) (now : ℚ) (d : Defect) : Defect :=
  if new_status = DefectStatus.FIXED then { d with fixed_date := some now }
  else if new_status = DefectStatus.VERIFIED then { d with verified_date := some now }
  else if new_status = DefectStatus.CLOSED then { d with closed_date := some now }
  else d

/-- `update_status`: returns `False` (state unchanged) when the id does
not exist; otherwise sets `status` (plus the matching date column via
`setStatusDates`), logs one history entry recording the old and new
status, and returns `True`. -/
def update_status (s : TrackerState) (now : ℚ) (defect_id : Nat)
    (new_status : DefectStatus) (changed_by : String) (comment : Option String) :
    Bool × TrackerState :=
  match findDefect s defect_id with
  | none => (false, s)
  | some d =>
      let old_status := d.status
      let ds := updateWhere s.defects defect_id
        (fun e => setStatusDates new_status now { e with status := new_status.value })
      let s1 : TrackerState := { s with defects := ds }
      let s2 := log_change s1 now defect_id changed_by (some "status")
        (some old_status) (some new_status.value) comment
      (true, s2)

/-- `assign_defect`: returns `False` (state unchanged) when the id does
not exist; otherwise sets `assigned_to`, also setting `status` to
Assigned when the current status is New, and logs one history entry
recording the old and new assignee. -/
def assign_defect (s : TrackerState) (now : ℚ) (defect_id : Nat)
    (assignee : String) (assigned_by : String) (comment : Option String) :
    Bool × TrackerState :=
  match findDefect s defect_id with
  | none => (false, s)
  | some d =>
      let old_assignee := d.assigned_to
      let ds :=
        if d.status = DefectStatus.NEW.value then
          updateWhere s.defects defect_id
            (fun e => { e with assigned_to := some assignee,
                               status := DefectStatus.ASSIGNED.value })
        else
          updateWhere s.defects defect_id
            (fun e => { e with assigned_to := some assignee })
      let s1 : TrackerState := { s with defects := ds }
      let s2 := log_change s1 now defect_id assigned_by (some "assigned_to")
        old_assignee (some assignee) comment
      (true, s2)

/-- `add_resolution`: issues the `UPDATE` unconditionally (no existence
check — a missing id updates zero rows), then logs a history entry only
when `resolved_by` is truthy, and always returns `True`. -/
def add_resolution (s : TrackerState) (now : ℚ) (defect_id : Nat)
    (resolution : String) (root_cause : Option String) (resolved_by : Option String) :
    Bool × TrackerState :=
  let ds := updateWhere s.defects defect_id
    (fun e => { e with resolution := some resolution, root_cause := root_cause })
  let s1 : TrackerState := { s with defects := ds }
  let s2 :=
    match resolved_by with
    | some rb =>
        if rb ≠ "" then
          log_change s1 now defect_id rb (some "resolution") none (some resolution)
            (some ("Root cause: " ++ optStr root_cause))
        else s1
    | none => s1
  (true, s2)

/-- The search criteria dictionary: the keys `search_defects` inspects;
an absent key (`none`) adds no `AND` clause. -/
structure SearchCriteria where
  status : Option String
  severity : Option Nat
  priority : Option Nat
  assigned_to : Option String
  module : Option String
deriving DecidableEq, Repr

/-- The empty criteria dictionary (`search_defects()` with no keyword
arguments). -/
def noCriteria : SearchCriteria :=
  { status := none, severity := none, priority := none,
    assigned_to := none, module := none }

/-- The `WHERE` clause built by `search_defects`: `1=1` plus one
equality conjunct per present criterion.  SQL `column = value` is false
on a `NULL` column, hence the `== some v` comparisons on the nullable
`assigned_to` and `module` columns. -/
def matchesCriteria (c : SearchCriteria) (d : Defect) : Bool :=
  (match c.status with | none => true | some v => d.status == v) &&
  (match c.severity with | none => true | some v => d.severity == v) &&
  (match c.priority with | none => true | some v => d.priority == v) &&
  (match c.assigned_to with | none => true | some v => d.assigned_to == some v) &&
  (match c.module with | none => true | some v => d.module == some v)

/-- `search_defects`: `SELECT * FROM defects WHERE 1=1 AND ...` — the
rows satisfying every present criterion, in table order. -/
def search_defects (s : TrackerState) (c : SearchCriteria) : List Defect :=
  s.defects.filter (matchesCriteria c)

/-- `round(x, 1)`: rounding to one decimal place (Python uses
round-half-to-even on floats; the two conventions agree everywhere a
claim evaluates it, and no claim exercises an exact half). -/
def round1 (x : ℚ) : ℚ := (round (10 * x) : ℤ) / 10

/-- The rows selected by the average-resolution query of `get_metrics`
(`WHERE status = 'Closed' AND closed_date IS NOT NULL`), mapped to
`julianday(closed_date) - julianday(found_date)`. -/
def closedResolutionDays (s : TrackerState) : List ℚ :=
  (s.defects.filter (fun d => d.status == "Closed" && d.closed_date.isSome)).map
    (fun d => d.closed_date.getD 0 - d.found_date)

/-- SQL `AVG` over the selected rows: `NULL` when no row qualifies. -/
def avgClosedDays (s : TrackerState) : Option ℚ :=
  match closedResolutionDays s with
  | [] => none
  | xs => some (xs.sum / (xs.length : ℚ))

/-- `metrics['avg_resolution_days'] = round(result[0], 1) if result[0]
else None`: the Python truthiness test turns both an absent average and
an average of exactly zero into `None`. -/
def avg_resolution_days (s : TrackerState) : Option ℚ :=
  let a := avgClosedDays s
  if ratTruthy a then (a.map round1) else none

/-- `metrics['by_status']`: `SELECT status, COUNT(*) FROM defects GROUP
BY status` as an association list keyed by the distinct status values. -/
def by_status (s : TrackerState) : List (String × Nat) :=
  let sts := s.defects.map (fun d => d.status)
  sts.dedup.map (fun v => (v, sts.count v))

/-- `metrics['by_module']`: `SELECT module, COUNT(*) FROM defects WHERE
module IS NOT NULL GROUP BY module` — only rows with a non-NULL module
are grouped and counted. -/
def by_module (s : TrackerState) : List (String × Nat) :=
  let mods := s.defects.filterMap (fun d => d.module)
  mods.dedup.map (fun v => (v, mods.count v))

/-- `metrics['reopened_count']`: `SELECT COUNT(*) FROM defects WHERE
status = 'Reopened'`. -/
def reopened_count (s : TrackerState) : Nat :=
  (s.defects.filter (fun d => d.status == "Reopened")).length

/-- One mutating call against a fixed defect id, with its clock
reading: the three tracked mutation operations of the class. -/
inductive Mutation
  | updateStatus (now : ℚ) (new_status : DefectStatus)
      (changed_by : String) (comment : Option String)
  | assign (now : ℚ) (assignee : String) (assigned_by : String)
      (comment : Option String)
  | addResolution (now : ℚ) (resolution : String)
      (root_cause : Option String) (resolved_by : Option String)
deriving DecidableEq, Repr

/-- The clock reading a mutation carries. -/
def Mutation.now : Mutation → ℚ
  | .updateStatus t _ _ _ => t
  | .assign t _ _ _ => t
  | .addResolution t _ _ _ => t

/-- Whether the mutation writes a history entry when it succeeds:
always, except `add_resolution` with a falsy `resolved_by`. -/
def Mutation.logs : Mutation → Bool
  | .updateStatus _ _ _ _ => true
  | .assign _ _ _ _ => true
  | .addResolution _ _ _ rb => strTruthy rb

/-- Dispatch one mutating call against `defect_id`. -/
def applyMutation (s : TrackerState) (defect_id : Nat) : Mutation → Bool × TrackerState
  | .updateStatus t st cb cm => update_status s t defect_id st cb cm
  | .assign t a ab cm => assign_defect s t defect_id a ab cm
  | .addResolution t r rc rb => add_resolution s t defect_id r rc rb

/-- Run a sequence of mutating calls against `defect_id`, collecting
each call's boolean result alongside the final state. -/
def runMutations (s : TrackerState) (defect_id : Nat) : List Mutation → TrackerState × List Bool
  | [] => (s, [])
  | m :: ms =>
      let r := applyMutation s defect_id m
      let rest := runMutations r.2 defect_id ms
      (rest.1, r.1 :: rest.2)

/-- Modelled from the spec (§4.3): a defect matches the criteria when
every given criterion equals the corresponding field; an absent
criterion imposes no constraint.  This is the spec-side predicate that
`search_defects` is compared against. -/
def MatchesSpec (c : SearchCriteria) (d : Defect) : Prop :=
  (∀ v, c.status = some v → d.status = v) ∧
  (∀ v, c.severity = some v → d.severity = v) ∧
  (∀ v, c.priority = some v → d.priority = v) ∧
  (∀ v, c.assigned_to = some v → d.assigned_to = some v) ∧
  (∀ v, c.module = some v → d.module = some v)

/-! ### Helper lemmas -/

/-- `setStatusDates` never touches the `id` column. -/
theorem setStatusDates_id (st : DefectStatus) (t : ℚ) (d : Defect) :
    (setStatusDates st t d).id = d.id := by
  unfold setStatusDates
  split
  · rfl
  · split
    · rfl
    · split <;> rfl

/-- A row update that preserves ids commutes with row lookup. -/
theorem find?_updateWhere (ds : List Defect) (i : Nat) (f : Defect → Defect)
    (hf : ∀ e, (f e).id = e.id) :
    (updateWhere ds i f).find? (fun d => d.id == i) =
      (ds.find? (fun d => d.id == i)).map f := by
  induction ds with
  | nil => rfl
  | cons d ds ih =>
      by_cases h : d.id = i
      · simp [updateWhere, List.find?_cons, h, hf d]
      · simp only [updateWhere, List.map_cons, if_neg h, List.find?_cons] at *
        have hne : (d.id == i) = false := by simp [h]
        simp [hne, ih]

/-- An `UPDATE ... WHERE id = ?` matching no row leaves the table as is. -/
theorem updateWhere_of_not_found (ds : List Defect) (i : Nat) (f : Defect → Defect)
    (h : ds.find? (fun d => d.id == i) = none) : updateWhere ds i f = ds := by
  rw [List.find?_eq_none] at h
  induction ds with
  | nil => rfl
  | cons d ds ih =>
      have hd : ¬ d.id = i := by
        have := h d (by simp)
        simpa using this
      simp only [updateWhere, List.map_cons, if_neg hd]
      have : updateWhere ds i f = ds := ih (fun x hx => h x (by simp [hx]))
      simpa [updateWhere] using this

/-- Rows with a different id survive an `UPDATE ... WHERE id = ?` unchanged. -/
theorem mem_updateWhere_of_ne (ds : List Defect) (i : Nat) (f : Defect → Defect)
    (e : Defect) (he : e ∈ ds) (hne : e.id ≠ i) : e ∈ updateWhere ds i f := by
  have : (if e.id = i then f e else e) ∈ updateWhere ds i f :=
    List.mem_map_of_mem _ he
  simpa [if_neg hne] using this

/-- `_log_change` appends exactly one row to the target id's history. -/
theorem historyFor_log_change (s : TrackerState) (t : ℚ) (i : Nat) (cb : String)
    (fc ov nv cm : Option String) :
    historyFor (log_change s t i cb fc ov nv cm) i =
      historyFor s i ++
        [{ defect_id := i, changed_by := cb, change_date := t, field_changed := fc,
           old_value := ov, new_value := nv, comment := cm }] := by
  simp [historyFor, log_change, List.filter_append]

/-- `_log_change` leaves the defects table untouched. -/
theorem defects_log_change (s : TrackerState) (t : ℚ) (i : Nat) (cb : String)
    (fc ov nv cm : Option String) :
    (log_change s t i cb fc ov nv cm).defects = s.defects := rfl

/-- Looking something up in an appended table first scans the left part. -/
theorem find?_append_of_none {α : Type} (l₁ l₂ : List α) (p : α → Bool)
    (h : l₁.find? p = none) : (l₁ ++ l₂).find? p = l₂.find? p := by
  rw [List.find?_append, h, Option.none_or]

/-- Unfolding of `update_status` on an existing id: one row update, one
history append, result `True`. -/
theorem update_status_found (s : TrackerState) (t : ℚ) (i : Nat) (st : DefectStatus)
    (cb : String) (cm : Option String) (d : Defect) (h : findDefect s i = some d) :
    update_status s t i st cb cm =
      (true,
        { defects := updateWhere s.defects i
            (fun e => setStatusDates st t { e with status := st.value }),
          history := s.history ++
            [{ defect_id := i, changed_by := cb, change_date := t,
               field_changed := some "status", old_value := some d.status,
               new_value := some st.value, comment := cm }],
          next_id := s.next_id }) := by
  unfold update_status
  rw [h]
  rfl

/-- Unfolding of `assign_defect` on an existing id. -/
theorem assign_defect_found (s : TrackerState) (t : ℚ) (i : Nat)
    (a ab : String) (cm : Option String) (d : Defect) (h : findDefect s i = some d) :
    assign_defect s t i a ab cm =
      (true,
        { defects :=
            if d.status = DefectStatus.NEW.value then
              updateWhere s.defects i
                (fun e => { e with assigned_to := some a,
                                   status := DefectStatus.ASSIGNED.value })
            else
              updateWhere s.defects i (fun e => { e with assigned_to := some a }),
          history := s.history ++
            [{ defect_id := i, changed_by := ab, change_date := t,
               field_changed := some "assigned_to", old_value := d.assigned_to,
               new_value := some a, comment := cm }],
          next_id := s.next_id }) := by
  unfold assign_defect
  rw [h]
  by_cases hn : d.status = DefectStatus.NEW.value
  · simp only [if_pos hn]
    rfl
  · simp only [if_neg hn]
    rfl

/-- Unfolding of `add_resolution` (no existence check in the code). -/
theorem add_resolution_eq (s : TrackerState) (t : ℚ) (i : Nat)
    (res : String) (rc rb : Option String) :
    add_resolution s t i res rc rb =
      (true,
        { defects := updateWhere s.defects i
            (fun e => { e with resolution := some res, root_cause := rc }),
          history := s.history ++
            (if strTruthy rb then
              [{ defect_id := i, changed_by := rb.getD "", change_date := t,
                 field_changed := some "resolution", old_value := none,
                 new_value := some res,
                 comment := some ("Root cause: " ++ optStr rc) }]
            else []),
          next_id := s.next_id }) := by
  match rb with
  | none => simp [add_resolution, strTruthy]
  | some r =>
      by_cases hr : r = ""
      · subst hr
        simp [add_resolution, strTruthy, log_change]
      · simp [add_resolution, strTruthy, hr, log_change]

/-- Row lookup after an id-preserving `UPDATE` that hits the row. -/
theorem find?_updateWhere_some (ds : List Defect) (i : Nat) (f : Defect → Defect)
    (hf : ∀ e, (f e).id = e.id) (d : Defect)
    (h : ds.find? (fun x => x.id == i) = some d) :
    (updateWhere ds i f).find? (fun x => x.id == i) = some (f d) := by
  rw [find?_updateWhere ds i f hf, h]
  rfl

/-- Every tracked mutation against an existing id succeeds, keeps the id
present, and extends that id's history dates by its own clock reading
exactly when it logs. -/
theorem applyMutation_found (s : TrackerState) (i : Nat) (m : Mutation) (d : Defect)
    (h : findDefect s i = some d) :
    (applyMutation s i m).1 = true ∧
    (∃ d', findDefect (applyMutation s i m).2 i = some d') ∧
    (historyFor (applyMutation s i m).2 i).map (fun e => e.change_date) =
      (historyFor s i).map (fun e => e.change_date) ++
        (if m.logs then [m.now] else []) := by
  match m with
  | .updateStatus t st cb cm =>
      rw [applyMutation, update_status_found s t i st cb cm d h]
      refine ⟨rfl, ?_, ?_⟩
      · exact ⟨_, find?_updateWhere_some s.defects i _
          (fun e => setStatusDates_id st t { e with status := st.value }) d h⟩
      · simp [historyFor, List.filter_append, Mutation.logs, Mutation.now]
  | .assign t a ab cm =>
      rw [applyMutation, assign_defect_found s t i a ab cm d h]
      by_cases hn : d.status = DefectStatus.NEW.value
      · rw [if_pos hn]
        refine ⟨rfl, ?_, ?_⟩
        · exact ⟨_, find?_updateWhere_some s.defects i
            (fun e => { e with assigned_to := some a,
                               status := DefectStatus.ASSIGNED.value })
            (fun e => rfl) d h⟩
        · simp [historyFor, List.filter_append, Mutation.logs, Mutation.now]
      · rw [if_neg hn]
        refine ⟨rfl, ?_, ?_⟩
        · exact ⟨_, find?_updateWhere_some s.defects i
            (fun e => { e with assigned_to := some a }) (fun e => rfl) d h⟩
        · simp [historyFor, List.filter_append, Mutation.logs, Mutation.now]
  | .addResolution t res rc rb =>
      rw [applyMutation, add_resolution_eq s t i res rc rb]
      refine ⟨rfl, ?_, ?_⟩
      · exact ⟨_, find?_updateWhere_some s.defects i
          (fun e => { e with resolution := some res, root_cause := rc })
          (fun e => rfl) d h⟩
      · by_cases hl : strTruthy rb
        · simp [historyFor, List.filter_append, Mutation.logs, Mutation.now, hl]
        · simp [historyFor, List.filter_append, Mutation.logs, Mutation.now, hl]

/-- Running a mutation sequence against an existing id: every call
returns `True`, and the id's history dates grow by exactly the clock
readings of the logging mutations, in order. -/
theorem runMutations_spec (ms : List Mutation) :
    ∀ (s : TrackerState) (i : Nat) (d : Defect), findDefect s i = some d →
    (∀ b ∈ (runMutations s i ms).2, b = true) ∧
    (∃ d', findDefect (runMutations s i ms).1 i = some d') ∧
    (historyFor (runMutations s i ms).1 i).map (fun e => e.change_date) =
      (historyFor s i).map (fun e => e.change_date) ++
        (ms.filter Mutation.logs).map Mutation.now := by
  induction ms with
  | nil =>
      intro s i d h
      refine ⟨?_, ⟨d, h⟩, ?_⟩
      · intro b hb
        simp [runMutations] at hb
      · simp [runMutations]
  | cons m ms ih =>
      intro s i d h
      obtain ⟨hb, ⟨d', hd'⟩, hdates⟩ := applyMutation_found s i m d h
      obtain ⟨ihb, ihfound, ihdates⟩ := ih (applyMutation s i m).2 i d' hd'
      refine ⟨?_, ?_, ?_⟩
      · intro b hb'
        simp only [runMutations, List.mem_cons] at hb'
        rcases hb' with rfl | hb'
        · exact hb
        · exact ihb b hb'
      · exact ihfound
      · show (historyFor (runMutations (applyMutation s i m).2 i ms).1 i).map _ = _
        rw [ihdates, hdates, List.filter_cons]
        by_cases hl : m.logs
        · simp [hl]
        · simp [hl]

/-- Replacing the defects table (and the id counter) does not change any
id's history. -/
theorem historyFor_set_defects (ds : List Defect) (hs : List HistoryEntry)
    (n i : Nat) (s : TrackerState) (hh : hs = s.history) :
    historyFor { defects := ds, history := hs, next_id := n } i = historyFor s i := by
  subst hh
  rfl

/-! ### Sample data for witnesses and counterexamples -/

/-- A defect row as `create_defect` would produce it (id 1, status New). -/
def sampleDefect : Defect :=
  { id := 1, title := "login fails", description := none, severity := 3,
    priority := 3, status := "New", module := none, found_by := "qa",
    assigned_to := none, found_date := 0, fixed_date := none,
    verified_date := none, closed_date := none, environment := none,
    steps_to_reproduce := none, expected_result := none, actual_result := none,
    root_cause := some "old cause", resolution := none, test_case_id := none,
    build_version := none, attachments := none }

/-- A store holding just `sampleDefect`. -/
def sampleState : TrackerState :=
  { defects := [sampleDefect], history := [], next_id := 2 }

/-- The empty store after one `add_resolution` call on the nonexistent
id 1 with a truthy `resolved_by`: the UPDATE matches no row, but
`_log_change` still inserts a `defect_id = 1` history row, while the
`defects` AUTOINCREMENT counter is untouched — so the next created
defect will receive id 1 with this stray row already in its history. -/
def pollutedState : TrackerState :=
  (add_resolution emptyTracker 0 1 "hotfix" none (some "bob")).2

/-! ### Claims -/

/-- C5: `create_defect` requires `title`, `found_by`, `severity` and
`priority`; when any of them is missing the call fails with
`ValidationError` and writes nothing: the returned state is exactly the
input state (no defect row, no history row). -/
theorem c5_create_validation (s : TrackerState) (now : ℚ)
    (title description : Option String) (severity : Option DefectSeverity)
    (priority : Option DefectPriority)
    (found_by module env stp exp act tc bv : Option String)
    (h : title = none ∨ severity = none ∨ priority = none ∨ found_by = none) :
    create_defect s now title description severity priority found_by module
      env stp exp act tc bv = (Except.error TrackerError.ValidationError, s) := by
  rcases title with _ | t <;> rcases severity with _ | sv <;>
    rcases priority with _ | pr <;> rcases found_by with _ | fb
  case some.some.some.some =>
      rcases h with h | h | h | h <;> simp at h
  all_goals rfl

/-- Witness for C5: creating with a missing title fails and leaves the
empty store untouched. -/
theorem c5_create_validation_witness :
    ((none : Option String) = none ∨ (some DefectSeverity.MODERATE : Option DefectSeverity) = none ∨
      (some DefectPriority.MEDIUM : Option DefectPriority) = none ∨ (some "qa" : Option String) = none) ∧
    create_defect emptyTracker 0 none none (some DefectSeverity.MODERATE)
      (some DefectPriority.MEDIUM) (some "qa") none none none none none none none =
      (Except.error TrackerError.ValidationError, emptyTracker) :=
  ⟨Or.inl rfl,
    c5_create_validation emptyTracker 0 none none (some DefectSeverity.MODERATE)
      (some DefectPriority.MEDIUM) (some "qa") none none none none none none none
      (Or.inl rfl)⟩

/-- A valid creation inserts exactly the `createdRow` (status New,
`found_date = now`) and appends exactly one creation entry to whatever
history rows already carry the fresh id (such rows exist when
`add_resolution` was called on the id before its creation). -/
theorem create_defect_ok (s : TrackerState) (now : ℚ) (title : String)
    (description : Option String) (severity : DefectSeverity)
    (priority : DefectPriority) (found_by : String)
    (module env stp exp act tc bv : Option String)
    (hfresh : findDefect s s.next_id = none) :
    ∃ s' d,
      create_defect s now (some title) description (some severity) (some priority)
        (some found_by) module env stp exp act tc bv = (Except.ok s.next_id, s') ∧
      findDefect s' s.next_id = some d ∧
      d.status = DefectStatus.NEW.value ∧
      d.found_date = now ∧
      historyFor s' s.next_id = historyFor s s.next_id ++
        [{ defect_id := s.next_id, changed_by := found_by, change_date := now,
           field_changed := none, old_value := none,
           new_value := some DefectStatus.NEW.value,
           comment := some "Defect created" }] := by
  refine ⟨_, createdRow s now title description severity priority found_by
    module env stp exp act tc bv, rfl, ?_, rfl, rfl, ?_⟩
  · show ((s.defects ++ [createdRow s now title description severity priority
        found_by module env stp exp act tc bv]).find?
          (fun x => x.id == s.next_id)) =
      some (createdRow s now title description severity priority found_by
        module env stp exp act tc bv)
    rw [find?_append_of_none _ _ _ hfresh]
    simp [List.find?_cons, createdRow]
  · rw [historyFor_log_change, historyFor_set_defects _ _ _ _ s rfl]

/-- C8 counterexample: after one `add_resolution` call on the not-yet-
created id 1 with a truthy `resolved_by` (a reachable store), creating a
defect returns id 1 with status New and `found_date` set, but the
history log for the new id holds two entries — the stray resolution row
plus the creation marker — not exactly one as claimed. -/
theorem c8_counterexample :
    (create_defect pollutedState 1 (some "login fails") none
      (some DefectSeverity.MODERATE) (some DefectPriority.MEDIUM) (some "qa")
      none none none none none none none).1 = Except.ok 1 ∧
    (findDefect (create_defect pollutedState 1 (some "login fails") none
      (some DefectSeverity.MODERATE) (some DefectPriority.MEDIUM) (some "qa")
      none none none none none none none).2 1).map (fun d => d.status) =
      some "New" ∧
    (findDefect (create_defect pollutedState 1 (some "login fails") none
      (some DefectSeverity.MODERATE) (some DefectPriority.MEDIUM) (some "qa")
      none none none none none none none).2 1).map (fun d => d.found_date) =
      some 1 ∧
    (historyFor (create_defect pollutedState 1 (some "login fails") none
      (some DefectSeverity.MODERATE) (some DefectPriority.MEDIUM) (some "qa")
      none none none none none none none).2 1).length = 2 ∧
    ¬ (historyFor (create_defect pollutedState 1 (some "login fails") none
      (some DefectSeverity.MODERATE) (some DefectPriority.MEDIUM) (some "qa")
      none none none none none none none).2 1).length = 1 := by
  exact ⟨rfl, rfl, rfl, rfl, by decide⟩

/-- C8 amended: a valid creation returns a defect with `status = New`
and `found_date` set to the creation time, and appends exactly one
creation marker to the new id's history — the log afterwards is the
rows previously written against that id (possible only via
`add_resolution` on the then-nonexistent id) plus that one marker, so it
is exactly one entry precisely when no such stray rows exist.  The
`hfresh` hypothesis (no defect row yet carries the fresh id) is a true
invariant of reachable stores, since only `create_defect` inserts rows
and it increments `next_id`. -/
theorem c8_amended (s : TrackerState) (now : ℚ) (title : String)
    (description : Option String) (severity : DefectSeverity)
    (priority : DefectPriority) (found_by : String)
    (module env stp exp act tc bv : Option String)
    (hfresh : findDefect s s.next_id = none) :
    ∃ s' d,
      create_defect s now (some title) description (some severity) (some priority)
        (some found_by) module env stp exp act tc bv = (Except.ok s.next_id, s') ∧
      findDefect s' s.next_id = some d ∧
      d.status = DefectStatus.NEW.value ∧
      d.found_date = now ∧
      historyFor s' s.next_id = historyFor s s.next_id ++
        [{ defect_id := s.next_id, changed_by := found_by, change_date := now,
           field_changed := none, old_value := none,
           new_value := some DefectStatus.NEW.value,
           comment := some "Defect created" }] :=
  create_defect_ok s now title description severity priority found_by module
    env stp exp act tc bv hfresh

/-- Witness for C8 amended: creating in the polluted store yields status
New, the creation timestamp, and the stray row plus one creation entry. -/
theorem c8_amended_witness :
    findDefect pollutedState pollutedState.next_id = none ∧
    ∃ s' d,
      create_defect pollutedState 1 (some "login fails") none
        (some DefectSeverity.MODERATE) (some DefectPriority.MEDIUM) (some "qa")
        none none none none none none none = (Except.ok pollutedState.next_id, s') ∧
      findDefect s' pollutedState.next_id = some d ∧
      d.status = DefectStatus.NEW.value ∧
      d.found_date = 1 ∧
      historyFor s' pollutedState.next_id =
        historyFor pollutedState pollutedState.next_id ++
          [{ defect_id := pollutedState.next_id, changed_by := "qa",
             change_date := 1, field_changed := none, old_value := none,
             new_value := some DefectStatus.NEW.value,
             comment := some "Defect created" }] :=
  ⟨rfl,
    c8_amended pollutedState 1 "login fails" none DefectSeverity.MODERATE
      DefectPriority.MEDIUM "qa" none none none none none none none rfl⟩

/-- C6: on an existing defect, `assign_defect` succeeds, sets
`assigned_to` to the assignee, flips `status` to Assigned exactly when
the current status is New (all other fields unchanged, as the record
updates show), appends exactly one history entry even when two fields
change, and leaves every other row in place. -/
theorem c6_assign (s : TrackerState) (now : ℚ) (i : Nat) (a ab : String)
    (cm : Option String) (d : Defect) (h : findDefect s i = some d) :
    (assign_defect s now i a ab cm).1 = true ∧
    findDefect (assign_defect s now i a ab cm).2 i =
      some (if d.status = DefectStatus.NEW.value then
              { d with assigned_to := some a,
                       status := DefectStatus.ASSIGNED.value }
            else { d with assigned_to := some a }) ∧
    (assign_defect s now i a ab cm).2.history = s.history ++
      [{ defect_id := i, changed_by := ab, change_date := now,
         field_changed := some "assigned_to", old_value := d.assigned_to,
         new_value := some a, comment := cm }] ∧
    (∀ x ∈ s.defects, x.id ≠ i → x ∈ (assign_defect s now i a ab cm).2.defects) := by
  rw [assign_defect_found s now i a ab cm d h]
  by_cases hn : d.status = DefectStatus.NEW.value
  · rw [if_pos hn]
    refine ⟨rfl, ?_, rfl, ?_⟩
    · rw [if_pos hn]
      exact find?_updateWhere_some s.defects i
        (fun e => { e with assigned_to := some a,
                           status := DefectStatus.ASSIGNED.value })
        (fun e => rfl) d h
    · intro x hx hne
      exact mem_updateWhere_of_ne s.defects i _ x hx hne
  · rw [if_neg hn]
    refine ⟨rfl, ?_, rfl, ?_⟩
    · rw [if_neg hn]
      exact find?_updateWhere_some s.defects i
        (fun e => { e with assigned_to := some a }) (fun e => rfl) d h
    · intro x hx hne
      exact mem_updateWhere_of_ne s.defects i _ x hx hne

/-- Witness for C6: assigning the New sample defect sets both
`assigned_to` and `status`, with one history entry. -/
theorem c6_assign_witness :
    findDefect sampleState 1 = some sampleDefect ∧
    ((assign_defect sampleState 2 1 "dev" "lead" none).1 = true ∧
      findDefect (assign_defect sampleState 2 1 "dev" "lead" none).2 1 =
        some (if sampleDefect.status = DefectStatus.NEW.value then
                { sampleDefect with assigned_to := some "dev",
                                    status := DefectStatus.ASSIGNED.value }
              else { sampleDefect with assigned_to := some "dev" }) ∧
      (assign_defect sampleState 2 1 "dev" "lead" none).2.history =
        sampleState.history ++
          [{ defect_id := 1, changed_by := "lead", change_date := 2,
             field_changed := some "assigned_to",
             old_value := sampleDefect.assigned_to,
             new_value := some "dev", comment := none }] ∧
      (∀ x ∈ sampleState.defects, x.id ≠ 1 →
        x ∈ (assign_defect sampleState 2 1 "dev" "lead" none).2.defects)) :=
  ⟨rfl, c6_assign sampleState 2 1 "dev" "lead" none sampleDefect rfl⟩

/-- C10: `add_resolution` on an existing defect succeeds and overwrites
both `resolution` and `root_cause` unconditionally — with the
`root_cause` argument omitted (`none`) the stored `root_cause` becomes
null even if previously set — while, as the record update shows, every
other field of the row and every other row stay unchanged. -/
theorem c10_add_resolution (s : TrackerState) (now : ℚ) (i : Nat)
    (res : String) (rc rb : Option String) (d : Defect)
    (h : findDefect s i = some d) :
    (add_resolution s now i res rc rb).1 = true ∧
    findDefect (add_resolution s now i res rc rb).2 i =
      some { d with resolution := some res, root_cause := rc } ∧
    (∀ x ∈ s.defects, x.id ≠ i → x ∈ (add_resolution s now i res rc rb).2.defects) := by
  rw [add_resolution_eq s now i res rc rb]
  refine ⟨rfl, ?_, ?_⟩
  · exact find?_updateWhere_some s.defects i
      (fun e => { e with resolution := some res, root_cause := rc })
      (fun e => rfl) d h
  · intro x hx hne
    exact mem_updateWhere_of_ne s.defects i _ x hx hne

/-- Witness for C10: adding a resolution with `root_cause` omitted
erases the sample defect's previously recorded root cause. -/
theorem c10_add_resolution_witness :
    findDefect sampleState 1 = some sampleDefect ∧
    sampleDefect.root_cause = some "old cause" ∧
    ((add_resolution sampleState 3 1 "fixed" none none).1 = true ∧
      findDefect (add_resolution sampleState 3 1 "fixed" none none).2 1 =
        some { sampleDefect with resolution := some "fixed", root_cause := none } ∧
      (∀ x ∈ sampleState.defects, x.id ≠ 1 →
        x ∈ (add_resolution sampleState 3 1 "fixed" none none).2.defects)) :=
  ⟨rfl, rfl, c10_add_resolution sampleState 3 1 "fixed" none none sampleDefect rfl⟩

/-- The boolean `WHERE` clause decides exactly the spec's matching
predicate. -/
theorem matchesCriteria_iff (c : SearchCriteria) (d : Defect) :
    matchesCriteria c d = true ↔ MatchesSpec c d := by
  obtain ⟨cs, cv, cp, ca, cmo⟩ := c
  simp only [matchesCriteria, MatchesSpec, Bool.and_eq_true]
  cases cs <;> cases cv <;> cases cp <;> cases ca <;> cases cmo <;>
    simp [and_assoc]

/-- C7: `search_defects` returns exactly the defects matching every
given criterion by equality (criteria ANDed, absent criterion
unconstrained), and the empty criteria set returns the whole table. -/
theorem c7_search (s : TrackerState) (c : SearchCriteria) :
    (∀ d : Defect, d ∈ search_defects s c ↔ d ∈ s.defects ∧ MatchesSpec c d) ∧
    search_defects s noCriteria = s.defects := by
  constructor
  · intro d
    rw [search_defects, List.mem_filter, matchesCriteria_iff]
  · rw [search_defects]
    apply List.filter_eq_self.mpr
    intro a _
    rfl

/-- Counting occurrences among the non-null modules equals filtering the
table by that module value. -/
theorem count_filterMap_module (l : List Defect) (v : String) :
    (l.filterMap (fun d => d.module)).count v =
      (l.filter (fun d => d.module == some v)).length := by
  induction l with
  | nil => rfl
  | cons d l ih =>
      cases hm : d.module with
      | none => simp [List.filterMap_cons, hm, ih, List.filter_cons]
      | some m =>
          by_cases he : m = v
          · subst he
            simp [List.filterMap_cons, hm, List.filter_cons, List.count_cons, ih]
          · simp [List.filterMap_cons, hm, List.filter_cons, List.count_cons, he, ih]

/-- The non-null modules are as many as the rows with a non-null module. -/
theorem length_filterMap_module (l : List Defect) :
    (l.filterMap (fun d => d.module)).length =
      (l.filter (fun d => d.module.isSome)).length := by
  induction l with
  | nil => rfl
  | cons d l ih =>
      cases hm : d.module with
      | none => simp [List.filterMap_cons, hm, ih, List.filter_cons]
      | some m => simp [List.filterMap_cons, hm, ih, List.filter_cons]

/-- A store with one defect in module "ui" and one defect with no module. -/
def c9State : TrackerState :=
  { defects := [{ sampleDefect with id := 1, module := some "ui" },
                { sampleDefect with id := 2, module := none }],
    history := [], next_id := 3 }

/-- C9: `by_module` counts only defects with a non-null module — each
bucket counts exactly the rows carrying that module value, every bucket
key comes from some row's module, and the bucket counts sum to the
number of rows with a module — so the sum can be strictly below the
total (witnessed by `c9State`), unlike `by_status`, whose counts always
sum to the total number of defects. -/
theorem c9_by_module :
    (∀ s : TrackerState,
      ((by_module s).map Prod.snd).sum =
        (s.defects.filter (fun d => d.module.isSome)).length ∧
      (∀ p ∈ by_module s,
        p.2 = (s.defects.filter (fun d => d.module == some p.1)).length ∧
        ∃ d ∈ s.defects, d.module = some p.1) ∧
      ((by_status s).map Prod.snd).sum = s.defects.length) ∧
    ((by_module c9State).map Prod.snd).sum < c9State.defects.length := by
  constructor
  · intro s
    refine ⟨?_, ?_, ?_⟩
    · rw [by_module, List.map_map]
      have : (Prod.snd ∘ fun v => (v, (s.defects.filterMap (fun d => d.module)).count v)) =
          fun v => (s.defects.filterMap (fun d => d.module)).count v := rfl
      rw [this, List.sum_map_count_dedup_eq_length, length_filterMap_module]
    · intro p hp
      rw [by_module] at hp
      obtain ⟨v, hv, hconv⟩ := List.mem_map.1 hp
      subst hconv
      refine ⟨count_filterMap_module s.defects v, ?_⟩
      have hvmem : v ∈ s.defects.filterMap (fun d => d.module) :=
        List.mem_dedup.1 hv
      obtain ⟨d, hd, hdm⟩ := List.mem_filterMap.1 hvmem
      exact ⟨d, hd, hdm⟩
    · rw [by_status, List.map_map]
      have : (Prod.snd ∘ fun v => (v, (s.defects.map (fun d => d.status)).count v)) =
          fun v => (s.defects.map (fun d => d.status)).count v := rfl
      rw [this, List.sum_map_count_dedup_eq_length, List.length_map]
  · decide

/-- The store after creating one defect (id 1) in the empty store at
time 0. -/
def exCreatedState : TrackerState :=
  (create_defect emptyTracker 0 (some "login fails") none
    (some DefectSeverity.MODERATE) (some DefectPriority.MEDIUM) (some "qa")
    none none none none none none none).2

/-- Defect 1 after Fixed at time 1. -/
def c1StateFixed : TrackerState :=
  (update_status exCreatedState 1 1 DefectStatus.FIXED "u" none).2

/-- ... then Reopened at time 2. -/
def c1StateReopened : TrackerState :=
  (update_status c1StateFixed 2 1 DefectStatus.REOPENED "u" none).2

/-- ... then Fixed again at time 3. -/
def c1StateRefixed : TrackerState :=
  (update_status c1StateReopened 3 1 DefectStatus.FIXED "u" none).2

/-- C1 counterexample: transitioning Fixed → Reopened → Fixed again
overwrites `fixed_date` (1 becomes 3); the code has no "only if not
already set" guard, so the claimed date-once invariant fails. -/
theorem c1_counterexample :
    (findDefect c1StateFixed 1).map (fun d => d.fixed_date) = some (some 1) ∧
    (findDefect c1StateRefixed 1).map (fun d => d.fixed_date) = some (some 3) ∧
    ¬ (findDefect c1StateRefixed 1).map (fun d => d.fixed_date) = some (some 1) := by
  refine ⟨rfl, rfl, ?_⟩
  decide

/-- C1 amended: `update_status` on an existing defect succeeds and sets
the corresponding date column to `now` whenever the new status is
Fixed/Verified/Closed — unconditionally, overwriting any date already
set — and leaves each of the three date columns unchanged otherwise. -/
theorem c1_amended (s : TrackerState) (now : ℚ) (i : Nat) (st : DefectStatus)
    (cb : String) (cm : Option String) (d : Defect)
    (h : findDefect s i = some d) :
    (update_status s now i st cb cm).1 = true ∧
    ∃ d', findDefect (update_status s now i st cb cm).2 i = some d' ∧
      d'.status = st.value ∧
      d'.fixed_date = (if st = DefectStatus.FIXED then some now else d.fixed_date) ∧
      d'.verified_date = (if st = DefectStatus.VERIFIED then some now else d.verified_date) ∧
      d'.closed_date = (if st = DefectStatus.CLOSED then some now else d.closed_date) := by
  rw [update_status_found s now i st cb cm d h]
  refine ⟨rfl, setStatusDates st now { d with status := st.value }, ?_, ?_, ?_, ?_, ?_⟩
  · exact find?_updateWhere_some s.defects i
      (fun e => setStatusDates st now { e with status := st.value })
      (fun e => setStatusDates_id st now { e with status := st.value }) d h
  · unfold setStatusDates
    split_ifs <;> simp_all
  · unfold setStatusDates
    split_ifs <;> simp_all
  · unfold setStatusDates
    split_ifs <;> simp_all
  · unfold setStatusDates
    split_ifs <;> simp_all

/-- Witness for C1 amended: marking the sample defect Fixed at time 4
stamps `fixed_date = 4`. -/
theorem c1_amended_witness :
    findDefect sampleState 1 = some sampleDefect ∧
    ((update_status sampleState 4 1 DefectStatus.FIXED "u" none).1 = true ∧
      ∃ d', findDefect (update_status sampleState 4 1 DefectStatus.FIXED "u" none).2 1 =
          some d' ∧
        d'.status = DefectStatus.FIXED.value ∧
        d'.fixed_date = (if DefectStatus.FIXED = DefectStatus.FIXED then some 4
          else sampleDefect.fixed_date) ∧
        d'.verified_date = (if DefectStatus.FIXED = DefectStatus.VERIFIED then some 4
          else sampleDefect.verified_date) ∧
        d'.closed_date = (if DefectStatus.FIXED = DefectStatus.CLOSED then some 4
          else sampleDefect.closed_date)) :=
  ⟨rfl, c1_amended sampleState 4 1 DefectStatus.FIXED "u" none sampleDefect rfl⟩

/-- C2 counterexample: `add_resolution` on a missing id (empty store)
returns success, not a failure, and with `resolved_by` given it even
writes a history row for the nonexistent id. -/
theorem c2_counterexample :
    findDefect emptyTracker 1 = none ∧
    (add_resolution emptyTracker 0 1 "fixed" none (some "bob")).1 = true ∧
    (add_resolution emptyTracker 0 1 "fixed" none (some "bob")).2.history.length = 1 := by
  exact ⟨rfl, rfl, rfl⟩

/-- C2 amended: on a missing id, `update_status` and `assign_defect`
return `False` and leave the store exactly as before, but
`add_resolution` performs no existence check: it returns `True`, leaves
the defects table unchanged (the UPDATE matches no row), and appends one
history row exactly when `resolved_by` is truthy. -/
theorem c2_amended (s : TrackerState) (t1 t2 t3 : ℚ) (i : Nat)
    (st : DefectStatus) (cb a ab res : String) (cm cm2 rc rb : Option String)
    (h : findDefect s i = none) :
    update_status s t1 i st cb cm = (false, s) ∧
    assign_defect s t2 i a ab cm2 = (false, s) ∧
    (add_resolution s t3 i res rc rb).1 = true ∧
    (add_resolution s t3 i res rc rb).2.defects = s.defects ∧
    (add_resolution s t3 i res rc rb).2.history.length =
      s.history.length + (if strTruthy rb then 1 else 0) := by
  refine ⟨?_, ?_, ?_, ?_, ?_⟩
  · unfold update_status
    rw [h]
  · unfold assign_defect
    rw [h]
  · rw [add_resolution_eq]
  · rw [add_resolution_eq]
    exact updateWhere_of_not_found s.defects i _ h
  · rw [add_resolution_eq]
    show (s.history ++ _).length = _
    rw [List.length_append]
    by_cases hb : strTruthy rb <;> simp [hb]

/-- Witness for C2 amended: id 99 is absent from the sample store; the
status and assignment updates fail cleanly while `add_resolution`
"succeeds" and logs one row. -/
theorem c2_amended_witness :
    findDefect sampleState 99 = none ∧
    (update_status sampleState 5 99 DefectStatus.OPEN "u" none = (false, sampleState) ∧
      assign_defect sampleState 6 99 "dev" "lead" none = (false, sampleState) ∧
      (add_resolution sampleState 7 99 "fixed" none (some "bob")).1 = true ∧
      (add_resolution sampleState 7 99 "fixed" none (some "bob")).2.defects =
        sampleState.defects ∧
      (add_resolution sampleState 7 99 "fixed" none (some "bob")).2.history.length =
        sampleState.history.length + (if strTruthy (some "bob") then 1 else 0)) :=
  ⟨rfl, c2_amended sampleState 5 6 7 99 DefectStatus.OPEN "u" "dev" "lead"
    "fixed" none none none (some "bob") rfl⟩

/-- C4 counterexample: the claimed N+1 audit pairing fails twice over.
First, after creating defect 1, a successful `add_resolution` call with
`resolved_by` omitted (N = 1 mutation) leaves the history at 1 entry,
not 2.  Second, in the reachable store where `add_resolution` was called
on id 1 before its creation (`pollutedState`), creation followed by one
logging mutation (N = 1) leaves 3 entries for the id, not 2. -/
theorem c4_counterexample :
    ((runMutations exCreatedState 1 [Mutation.addResolution 1 "fixed" none none]).2 =
        [true] ∧
      (historyFor (runMutations exCreatedState 1
          [Mutation.addResolution 1 "fixed" none none]).1 1).length = 1 ∧
      ¬ (historyFor (runMutations exCreatedState 1
          [Mutation.addResolution 1 "fixed" none none]).1 1).length = 1 + 1) ∧
    ((runMutations (create_defect pollutedState 1 (some "login fails") none
        (some DefectSeverity.MODERATE) (some DefectPriority.MEDIUM) (some "qa")
        none none none none none none none).2 1
        [Mutation.updateStatus 2 DefectStatus.FIXED "u" none]).2 = [true] ∧
      (historyFor (runMutations (create_defect pollutedState 1 (some "login fails") none
          (some DefectSeverity.MODERATE) (some DefectPriority.MEDIUM) (some "qa")
          none none none none none none none).2 1
          [Mutation.updateStatus 2 DefectStatus.FIXED "u" none]).1 1).length = 3 ∧
      ¬ (historyFor (runMutations (create_defect pollutedState 1 (some "login fails") none
          (some DefectSeverity.MODERATE) (some DefectPriority.MEDIUM) (some "qa")
          none none none none none none none).2 1
          [Mutation.updateStatus 2 DefectStatus.FIXED "u" none]).1 1).length = 1 + 1) := by
  exact ⟨⟨rfl, rfl, by decide⟩, ⟨rfl, rfl, by decide⟩⟩

/-- C4 amended: for every sequence of N mutating calls against a freshly
created id in which every `add_resolution` passes a truthy
`resolved_by`, all N calls succeed, and the id's history afterwards
consists of the rows already logged against that id before its creation
(stray `add_resolution` writes to the then-nonexistent id), the creation
entry, and one entry per mutation — exactly (stray rows) + N + 1
entries, hence N + 1 precisely when no stray rows exist — with change
dates non-decreasing in log order given the real clock's monotonicity
across all of those writes.  The deviations from the original claim:
`add_resolution` without a truthy `resolved_by` succeeds but appends no
entry, and rows logged against the id before its creation inflate the
count beyond N + 1. -/
theorem c4_amended (s : TrackerState) (t0 : ℚ) (title found_by : String)
    (description module env stp exp act tc bv : Option String)
    (severity : DefectSeverity) (priority : DefectPriority)
    (ms : List Mutation)
    (hfresh : findDefect s s.next_id = none)
    (hlogs : ∀ m ∈ ms, m.logs = true)
    (hsorted : List.Sorted (· ≤ ·)
      ((historyFor s s.next_id).map (fun e => e.change_date) ++
        t0 :: ms.map Mutation.now)) :
    (∀ b ∈ (runMutations (create_defect s t0 (some title) description
        (some severity) (some priority) (some found_by) module env stp exp act
        tc bv).2 s.next_id ms).2, b = true) ∧
    (historyFor (runMutations (create_defect s t0 (some title) description
        (some severity) (some priority) (some found_by) module env stp exp act
        tc bv).2 s.next_id ms).1 s.next_id).length =
      (historyFor s s.next_id).length + ms.length + 1 ∧
    List.Sorted (· ≤ ·)
      ((historyFor (runMutations (create_defect s t0 (some title) description
          (some severity) (some priority) (some found_by) module env stp exp act
          tc bv).2 s.next_id ms).1 s.next_id).map (fun e => e.change_date)) := by
  obtain ⟨s', d, hcreq, hfound, _, _, hhist⟩ :=
    create_defect_ok s t0 title description severity priority found_by module
      env stp exp act tc bv hfresh
  have hs' : (create_defect s t0 (some title) description (some severity)
      (some priority) (some found_by) module env stp exp act tc bv).2 = s' := by
    rw [hcreq]
  rw [hs']
  obtain ⟨hall, _, hdates⟩ := runMutations_spec ms s' s.next_id d hfound
  have hfilter : ms.filter Mutation.logs = ms := List.filter_eq_self.mpr hlogs
  have hdates' : (historyFor (runMutations s' s.next_id ms).1 s.next_id).map
      (fun e => e.change_date) =
      (historyFor s s.next_id).map (fun e => e.change_date) ++
        t0 :: ms.map Mutation.now := by
    rw [hdates, hhist, hfilter]
    simp
  refine ⟨hall, ?_, ?_⟩
  · have hlen := congrArg List.length hdates'
    simp only [List.length_map, List.length_append, List.length_cons] at hlen
    omega
  · rw [hdates']
    exact hsorted

/-- Witness for C4 amended: starting from the polluted store (one stray
row for the future id), create at time 1, mark Fixed at time 2, add a
resolution by "bob" at time 3 — two logging mutations, 1 + 2 + 1 = 4
history entries with sorted dates. -/
theorem c4_amended_witness :
    findDefect pollutedState pollutedState.next_id = none ∧
    (∀ m ∈ [Mutation.updateStatus 2 DefectStatus.FIXED "u" none,
            Mutation.addResolution 3 "fixed" none (some "bob")], m.logs = true) ∧
    List.Sorted (· ≤ ·)
      ((historyFor pollutedState pollutedState.next_id).map (fun e => e.change_date) ++
        (1:ℚ) :: [Mutation.updateStatus 2 DefectStatus.FIXED "u" none,
          Mutation.addResolution 3 "fixed" none (some "bob")].map Mutation.now) ∧
    ((∀ b ∈ (runMutations (create_defect pollutedState 1 (some "login fails") none
        (some DefectSeverity.MODERATE) (some DefectPriority.MEDIUM) (some "qa")
        none none none none none none none).2 pollutedState.next_id
        [Mutation.updateStatus 2 DefectStatus.FIXED "u" none,
         Mutation.addResolution 3 "fixed" none (some "bob")]).2, b = true) ∧
      (historyFor (runMutations (create_defect pollutedState 1 (some "login fails") none
          (some DefectSeverity.MODERATE) (some DefectPriority.MEDIUM) (some "qa")
          none none none none none none none).2 pollutedState.next_id
          [Mutation.updateStatus 2 DefectStatus.FIXED "u" none,
           Mutation.addResolution 3 "fixed" none (some "bob")]).1
        pollutedState.next_id).length =
        (historyFor pollutedState pollutedState.next_id).length +
          [Mutation.updateStatus 2 DefectStatus.FIXED "u" none,
           Mutation.addResolution 3 "fixed" none (some "bob")].length + 1 ∧
      List.Sorted (· ≤ ·)
        ((historyFor (runMutations (create_defect pollutedState 1 (some "login fails") none
            (some DefectSeverity.MODERATE) (some DefectPriority.MEDIUM) (some "qa")
            none none none none none none none).2 pollutedState.next_id
            [Mutation.updateStatus 2 DefectStatus.FIXED "u" none,
             Mutation.addResolution 3 "fixed" none (some "bob")]).1
          pollutedState.next_id).map (fun e => e.change_date))) :=
  ⟨rfl, by decide, by decide,
    c4_amended pollutedState 1 "login fails" "qa" none none none none none none
      none none DefectSeverity.MODERATE DefectPriority.MEDIUM
      [Mutation.updateStatus 2 DefectStatus.FIXED "u" none,
       Mutation.addResolution 3 "fixed" none (some "bob")]
      rfl (by decide) (by decide)⟩

/-- The sample defect as a Closed row: found on day 0, closed on day `cd`. -/
def closedSample (cd : ℚ) : Defect :=
  { sampleDefect with status := "Closed", found_date := 0, closed_date := some cd }

/-- A store with one Closed defect found and closed at the same instant
(resolution time exactly 0 days). -/
def c3ZeroState : TrackerState :=
  { defects := [closedSample 0], history := [], next_id := 2 }

/-- A store with one Closed defect found on day 0 and closed on day 5. -/
def c3FiveState : TrackerState :=
  { defects := [closedSample 5], history := [], next_id := 2 }

/-- C3: the average-resolution metric matches the spec on the 5-day
example, but on a store whose Closed defects average exactly 0 days the
Python truthiness test `if result[0]` treats the 0.0 average like the
no-data case and yields `None` ("undefined") although a qualifying
Closed defect exists — the claim (return 0.0, undefined only when no
such defect exists) describes the intent and the code deviates. -/
theorem c3_zero_average_bug :
    (closedResolutionDays c3ZeroState).length = 1 ∧
    avgClosedDays c3ZeroState = some 0 ∧
    avg_resolution_days c3ZeroState = none ∧
    avg_resolution_days c3FiveState = some 5 := by
  have hz : avgClosedDays c3ZeroState = some 0 := by
    simp [avgClosedDays, closedResolutionDays, c3ZeroState, closedSample, sampleDefect]
  have hf : avgClosedDays c3FiveState = some 5 := by
    simp [avgClosedDays, closedResolutionDays, c3FiveState, closedSample, sampleDefect]
  refine ⟨rfl, hz, ?_, ?_⟩
  · rw [avg_resolution_days, hz]
    simp [ratTruthy]
  · rw [avg_resolution_days, hf]
    have h50 : (10:ℚ) * 5 = 50 := by norm_num
    simp [ratTruthy, round1, h50]
    norm_num

end DefectTrackerPy
